import Mathlib

/-!
Verification development for the multi-timeframe reversal detector
(`src/bot/bot_reversao.py`).

The analytical core is embedded shallowly:

* Prices, volumes and thresholds are modelled as exact rationals `ℚ`
  (every literal appearing in the source is an exact decimal).
* NumPy float division never raises: `0/0` is NaN and `x/0` (`x ≠ 0`) is a
  signed infinity, and every comparison against NaN is false.  This is
  modelled by the type `NpF` together with `npdiv` and the comparison
  predicates `NpF.gt` / `NpF.lt`.
* Plain Python float division (`(high - low) / open_price`, the risk
  formula) raises `ZeroDivisionError`; out-of-range list indexing raises
  `IndexError`.  Fallible code is therefore modelled in `Except PyErr`.
* `np.std` takes a real square root, so the band lists live in `ℝ`
  (`Real.sqrt` of an exactly computed rational variance).
* I/O (Binance fetches, Telegram delivery, the wall clock) is passed in as
  explicit parameters; the mutable dedup set of `TelegramAlerta` is passed
  as explicit state.
-/

/-- Result of a NumPy floating-point operation: a finite value, NaN, or a
signed infinity.  NumPy division by zero yields NaN (for `0/0`) or a signed
infinity (otherwise) and does not raise. -/
inductive NpF (α : Type) where
  | val : α → NpF α
  | nan : NpF α
  | pinf : NpF α
  | ninf : NpF α
  deriving DecidableEq

/-- NumPy-style division: division by zero produces NaN or a signed
infinity instead of raising. -/
def npdiv {α : Type} [LinearOrderedField α] [DecidableEq α]
    [∀ x y : α, Decidable (x < y)] (a b : α) : NpF α :=
  if b = 0 then (if a = 0 then .nan else if 0 < a then .pinf else .ninf)
  else .val (a / b)

/-- Python `f > q` for a float `f` that may be NaN or infinite: NaN compares
false with everything, `+inf` is greater than every finite value. -/
def NpF.gt {α : Type} [LT α] : NpF α → α → Prop
  | .val x, q => q < x
  | .nan, _ => False
  | .pinf, _ => True
  | .ninf, _ => False

/-- Python `f < q` for a float `f` that may be NaN or infinite. -/
def NpF.lt {α : Type} [LT α] : NpF α → α → Prop
  | .val x, q => x < q
  | .nan, _ => False
  | .pinf, _ => False
  | .ninf, _ => True

instance {α : Type} [LT α] [∀ x y : α, Decidable (x < y)] (x : NpF α)
    (q : α) : Decidable (NpF.gt x q) :=
  match x with
  | .val v => inferInstanceAs (Decidable (q < v))
  | .nan => isFalse (fun h => h)
  | .pinf => isTrue trivial
  | .ninf => isFalse (fun h => h)

instance {α : Type} [LT α] [∀ x y : α, Decidable (x < y)] (x : NpF α)
    (q : α) : Decidable (NpF.lt x q) :=
  match x with
  | .val v => inferInstanceAs (Decidable (v < q))
  | .nan => isFalse (fun h => h)
  | .pinf => isFalse (fun h => h)
  | .ninf => isTrue trivial

/-- Python exceptions reachable inside the detection core. -/
inductive PyErr where
  | indexError : PyErr
  | zeroDivisionError : PyErr
  deriving DecidableEq

/-- Plain Python float division, which raises `ZeroDivisionError` on a zero
divisor (unlike NumPy array division). -/
def pydivE (a b : ℚ) : Except PyErr ℚ :=
  if b = 0 then .error .zeroDivisionError else .ok (a / b)

/-- Python negative indexing `l[-i]` (`i ≥ 1`), `none` on an out-of-range
index (where Python raises `IndexError`). -/
def pyGetNeg {α : Type} (l : List α) (i : ℕ) : Option α :=
  if h : 1 ≤ i ∧ i ≤ l.length then some (l.get ⟨l.length - i, by omega⟩)
  else none

/-- Python negative indexing `l[-i]` at a position the surrounding code has
already bounds-checked (the default is unreachable there). -/
def pyNegD {α : Type} [Inhabited α] (l : List α) (i : ℕ) : α :=
  l.getD (l.length - i) default

/-- `np.mean` of a list of rationals. -/
def mean (w : List ℚ) : ℚ := w.sum / (w.length : ℚ)

/-- The mean squared deviation (population variance, divisor = length),
the quantity under the square root in `np.std`. -/
def variance (w : List ℚ) : ℚ :=
  ((w.map (fun x => (x - mean w) ^ 2)).sum) / (w.length : ℚ)

/-- `np.std` with its default `ddof = 0`: the square root of the population
variance of the window. -/
noncomputable def npstd (w : List ℚ) : ℝ := Real.sqrt ((variance w : ℚ) : ℝ)

/-- One OHLCV candle as fetched from the klines endpoint: field `[0]` is the
open time, `[1]` the open, `[2]` the high, `[3]` the low, `[4]` the close,
`[5]` the volume, `[6]` the close time. -/
structure Candle where
  open_time : ℤ
  open_price : ℚ
  high : ℚ
  low : ℚ
  close : ℚ
  volume : ℚ
  close_time : ℤ
  deriving DecidableEq, Inhabited

/-- The dictionary returned by `BollingerBands.calcular`. -/
structure BB where
  superior : List ℝ
  media : List ℚ
  inferior : List ℝ
  percent_b : List (NpF ℝ)
  periodo : ℕ
  desvios : ℚ

/-- `np.convolve(a, v, mode='valid')`: full-overlap sliding dot products
with the kernel reversed. -/
def convolveValid (a v : List ℚ) : List ℚ :=
  (List.range (a.length - v.length + 1)).map (fun i =>
    ((List.range v.length).map
      (fun j => a.getD (i + j) 0 * v.getD (v.length - 1 - j) 0)).sum)

/-- `sma = np.convolve(closes, np.ones(periodo)/periodo, mode='valid')`. -/
def sma_calc (closes : List ℚ) (periodo : ℕ) : List ℚ :=
  convolveValid closes (List.replicate periodo ((1 : ℚ) / periodo))

/-- `std = np.array([np.std(closes[i:i+periodo]) for i in range(len(closes) - periodo + 1)])`. -/
noncomputable def std_calc (closes : List ℚ) (periodo : ℕ) : List ℝ :=
  (List.range (closes.length - periodo + 1)).map
    (fun i => npstd ((closes.drop i).take periodo))

/-- `superior = sma + (desvios * std)`. -/
noncomputable def superior_calc (closes : List ℚ) (periodo : ℕ)
    (desvios : ℚ) : List ℝ :=
  List.zipWith (fun (m : ℚ) (s : ℝ) => (m : ℝ) + (desvios : ℝ) * s)
    (sma_calc closes periodo) (std_calc closes periodo)

/-- `inferior = sma - (desvios * std)`. -/
noncomputable def inferior_calc (closes : List ℚ) (periodo : ℕ)
    (desvios : ℚ) : List ℝ :=
  List.zipWith (fun (m : ℚ) (s : ℝ) => (m : ℝ) - (desvios : ℝ) * s)
    (sma_calc closes periodo) (std_calc closes periodo)

/-- `percent_b = (closes[periodo-1:] - inferior) / (superior - inferior)`,
an elementwise NumPy division that produces NaN rather than raising on a
zero band width. -/
noncomputable def percent_b_calc (closes : List ℚ) (periodo : ℕ)
    (desvios : ℚ) : List (NpF ℝ) :=
  List.zipWith (fun (c : ℚ) (p : ℝ × ℝ) => npdiv ((c : ℝ) - p.2) (p.1 - p.2))
    (closes.drop (periodo - 1))
    ((superior_calc closes periodo desvios).zip (inferior_calc closes periodo desvios))

/-- `BollingerBands.calcular`: simple moving average via `np.convolve`,
moving population standard deviation, the two bands, and `%B`.  Returns
`none` when fewer than `periodo` candles are supplied. -/
noncomputable def calcular (candles : List Candle) (periodo : ℕ)
    (desvios : ℚ) : Option BB :=
  if candles.length < periodo then none
  else
    let closes := candles.map Candle.close
    some ⟨superior_calc closes periodo desvios, sma_calc closes periodo,
      inferior_calc closes periodo desvios, percent_b_calc closes periodo desvios,
      periodo, desvios⟩

/-- The dictionary returned by `DetectorReversao.detectar_contexto_1h`. -/
structure Contexto where
  tipo : String
  preco_zona : ℚ
  preco_atual : ℚ
  forca_volume : NpF ℚ
  timestamp : ℤ
  timeframe : String
  deriving DecidableEq

/-- The dictionary returned by `DetectorReversao.detectar_entrada_5m`. -/
structure Entrada where
  tipo : String
  percent_b : NpF ℝ
  amplitude_media : ℚ
  preco_atual : ℚ
  timestamp : ℤ
  timeframe : String

/-- `ultimos = klines_1h[-5:]`. -/
def ultimos (klines_1h : List Candle) : List Candle :=
  klines_1h.drop (klines_1h.length - 5)

/-- `maxima_atual = float(ultimos[-1][2])`. -/
def maxima_atual (klines_1h : List Candle) : ℚ := (pyNegD (ultimos klines_1h) 1).high

/-- `minima_atual = float(ultimos[-1][3])`. -/
def minima_atual (klines_1h : List Candle) : ℚ := (pyNegD (ultimos klines_1h) 1).low

/-- `fechamento_atual = float(ultimos[-1][4])`. -/
def fechamento_atual (klines_1h : List Candle) : ℚ := (pyNegD (ultimos klines_1h) 1).close

/-- `volume_atual = float(ultimos[-1][5])`. -/
def volume_atual (klines_1h : List Candle) : ℚ := (pyNegD (ultimos klines_1h) 1).volume

/-- `maxima_anterior = float(ultimos[-2][2])`. -/
def maxima_anterior (klines_1h : List Candle) : ℚ := (pyNegD (ultimos klines_1h) 2).high

/-- `minima_anterior = float(ultimos[-2][3])`. -/
def minima_anterior (klines_1h : List Candle) : ℚ := (pyNegD (ultimos klines_1h) 2).low

/-- `int(ultimos[-1][0])`. -/
def timestamp_atual (klines_1h : List Candle) : ℤ := (pyNegD (ultimos klines_1h) 1).open_time

/-- `forca_volume = volume_atual / np.mean([float(k[5]) for k in klines_1h[-20:]])`;
the NumPy quotient is NaN/inf rather than an exception if the mean is zero. -/
def forca_volume (klines_1h : List Candle) : NpF ℚ :=
  npdiv (volume_atual klines_1h)
    (mean ((klines_1h.drop (klines_1h.length - 20)).map Candle.volume))

/-- The three resistance conditions of `detectar_contexto_1h`. -/
def resistencia_cond (klines_1h : List Candle) : Prop :=
  maxima_atual klines_1h > maxima_anterior klines_1h * 1.005 ∧
  fechamento_atual klines_1h < maxima_atual klines_1h * 0.995 ∧
  NpF.gt (forca_volume klines_1h) 1.2

/-- The three (mirrored) support conditions of `detectar_contexto_1h`. -/
def suporte_cond (klines_1h : List Candle) : Prop :=
  minima_atual klines_1h < minima_anterior klines_1h * 0.995 ∧
  fechamento_atual klines_1h > minima_atual klines_1h * 1.005 ∧
  NpF.gt (forca_volume klines_1h) 1.2

instance (k : List Candle) : Decidable (resistencia_cond k) :=
  inferInstanceAs (Decidable (_ ∧ _ ∧ _))

instance (k : List Candle) : Decidable (suporte_cond k) :=
  inferInstanceAs (Decidable (_ ∧ _ ∧ _))

/-- `DetectorReversao.detectar_contexto_1h`: classify the latest 1h candle
as a resistance zone, a support zone (resistance tested first), or neither;
fewer than 25 candles yields `None`. -/
def detectar_contexto_1h (klines_1h : List Candle) : Option Contexto :=
  if klines_1h.length < 25 then none
  else if resistencia_cond klines_1h then
    some ⟨"resistencia", maxima_atual klines_1h, fechamento_atual klines_1h,
      forca_volume klines_1h, timestamp_atual klines_1h, "1h"⟩
  else if suporte_cond klines_1h then
    some ⟨"suporte", minima_atual klines_1h, fechamento_atual klines_1h,
      forca_volume klines_1h, timestamp_atual klines_1h, "1h"⟩
  else none

/-- The amplitude loop of `detectar_entrada_5m` (`for i in range(-4, -1)`),
unrolled: for each closed candle `klines_5m[i]`, `i ∈ {-4, -3, -2}`, the
relative amplitude `(high - low) / open`; the plain-float division raises
on a zero open. -/
def amplitudesE (klines_5m : List Candle) : Except PyErr (List ℚ) :=
  match pydivE ((pyNegD klines_5m 4).high - (pyNegD klines_5m 4).low)
      (pyNegD klines_5m 4).open_price with
  | .error e => .error e
  | .ok a4 =>
    match pydivE ((pyNegD klines_5m 3).high - (pyNegD klines_5m 3).low)
        (pyNegD klines_5m 3).open_price with
    | .error e => .error e
    | .ok a3 =>
      match pydivE ((pyNegD klines_5m 2).high - (pyNegD klines_5m 2).low)
          (pyNegD klines_5m 2).open_price with
      | .error e => .error e
      | .ok a2 => .ok [a4, a3, a2]

/-- The same loop with the divisions written as total rational division,
meaningful when the three opens are nonzero. -/
def amplitudes (klines_5m : List Candle) : List ℚ :=
  [((pyNegD klines_5m 4).high - (pyNegD klines_5m 4).low) /
      (pyNegD klines_5m 4).open_price,
    ((pyNegD klines_5m 3).high - (pyNegD klines_5m 3).low) /
      (pyNegD klines_5m 3).open_price,
    ((pyNegD klines_5m 2).high - (pyNegD klines_5m 2).low) /
      (pyNegD klines_5m 2).open_price]

/-- `DetectorReversao.detectar_entrada_5m`: read `%B` of the last closed
candle (`bb['percent_b'][-2]`, an `IndexError` when that list is too
short), average the relative amplitudes of candles `-4 … -2`, and classify
an upper- or lower-band consolidation. -/
noncomputable def detectar_entrada_5m (klines_5m : List Candle)
    (bb : Option BB) : Except PyErr (Option Entrada) :=
  match bb with
  | none => .ok none
  | some b =>
    if klines_5m.length < 15 then .ok none
    else
      match pyGetNeg b.percent_b 2 with
      | none => .error .indexError
      | some percent_b =>
        match amplitudesE klines_5m with
        | .error e => .error e
        | .ok amps =>
          let amplitude_media := mean amps
          if NpF.gt percent_b (0.95 : ℝ) ∧ amplitude_media < 0.003 then
            .ok (some ⟨"lateralizacao_superior", percent_b, amplitude_media,
              (pyNegD klines_5m 2).close, (pyNegD klines_5m 2).open_time, "5m"⟩)
          else if NpF.lt percent_b (0.05 : ℝ) ∧ amplitude_media < 0.003 then
            .ok (some ⟨"lateralizacao_inferior", percent_b, amplitude_media,
              (pyNegD klines_5m 2).close, (pyNegD klines_5m 2).open_time, "5m"⟩)
          else .ok none

/-- The dictionary returned by `DetectorReversao.confirmar_sinal`. -/
structure Sinal where
  acao : String
  symbol : String
  preco_entrada : ℚ
  preco_zona : ℚ
  risco_percentual : ℚ
  forca_volume : NpF ℚ
  timestamp : String
  timeframe_contexto : String
  timeframe_entrada : String
  confianca : String
  deriving DecidableEq

/-- Steps 4–6 of `DetectorReversao.confirmar_sinal` (the fetches and the
band computation of steps 1–3 are the I/O collaborators; their results
enter as the two classification arguments).  `now` is the formatted
`datetime.now()` string.  The risk quotient is a plain-float division and
raises on a zero zone price. -/
def confirmar_sinal (symbol : String) (now : String)
    (contexto : Option Contexto) (entrada : Option Entrada) :
    Except PyErr (Option Sinal) :=
  match contexto with
  | none => .ok none
  | some ctx =>
    match entrada with
    | none => .ok none
    | some ent =>
      if ctx.tipo = "resistencia" ∧ ent.tipo = "lateralizacao_superior" then
        match pydivE (ctx.preco_zona - ent.preco_atual) ctx.preco_zona with
        | .error e => .error e
        | .ok risco =>
          .ok (some ⟨"VENDA", symbol, ent.preco_atual, ctx.preco_zona,
            |risco| * 100, ctx.forca_volume, now, "1h", "5m",
            if NpF.gt ctx.forca_volume 1.5 then "ALTA" else "MÉDIA"⟩)
      else if ctx.tipo = "suporte" ∧ ent.tipo = "lateralizacao_inferior" then
        match pydivE (ent.preco_atual - ctx.preco_zona) ctx.preco_zona with
        | .error e => .error e
        | .ok risco =>
          .ok (some ⟨"COMPRA", symbol, ent.preco_atual, ctx.preco_zona,
            |risco| * 100, ctx.forca_volume, now, "1h", "5m",
            if NpF.gt ctx.forca_volume 1.5 then "ALTA" else "MÉDIA"⟩)
      else .ok none

/-- The mutable state of `TelegramAlerta`: the in-memory dedup set
`alertas_enviados` and the append-only `historico_sinais.log`. -/
structure TelegramAlerta where
  alertas_enviados : List String
  historico_sinais : List Sinal

/-- The dedup key `f"{sinal['symbol']}_{sinal['acao']}_{sinal['timestamp'][:5]}"`
(the first five characters of the timestamp are the calendar date `dd/mm`). -/
def chave_unica (sinal : Sinal) : String :=
  sinal.symbol ++ "_" ++ sinal.acao ++ "_" ++ sinal.timestamp.take 5

/-- `TelegramAlerta.enviar_sinal`.  `chat_id_ok` is whether `CHAT_ID` is
configured (a missing id raises a `ValueError` caught by the generic
handler) and `envio_ok` is whether `bot.send_message` succeeds; both
failures return `False` before the key is recorded or the history line
appended. -/
def enviar_sinal (st : TelegramAlerta) (sinal : Sinal)
    (chat_id_ok : Bool) (envio_ok : Bool) : Bool × TelegramAlerta :=
  let chave := chave_unica sinal
  if chave ∈ st.alertas_enviados then (false, st)
  else if chat_id_ok = false then (false, st)
  else if envio_ok = false then (false, st)
  else (true, ⟨chave :: st.alertas_enviados, st.historico_sinais ++ [sinal]⟩)

lemma length_convolveValid (a v : List ℚ) :
    (convolveValid a v).length = a.length - v.length + 1 := by
  simp [convolveValid]

lemma length_sma_calc (closes : List ℚ) (P : ℕ) :
    (sma_calc closes P).length = closes.length - P + 1 := by
  simp [sma_calc, length_convolveValid]

lemma length_std_calc (closes : List ℚ) (P : ℕ) :
    (std_calc closes P).length = closes.length - P + 1 := by
  simp [std_calc]

lemma length_superior_calc (closes : List ℚ) (P : ℕ) (K : ℚ) :
    (superior_calc closes P K).length = closes.length - P + 1 := by
  rw [superior_calc, List.length_zipWith, length_sma_calc, length_std_calc, min_self]

lemma length_inferior_calc (closes : List ℚ) (P : ℕ) (K : ℚ) :
    (inferior_calc closes P K).length = closes.length - P + 1 := by
  rw [inferior_calc, List.length_zipWith, length_sma_calc, length_std_calc, min_self]

lemma length_percent_b_calc (closes : List ℚ) (P : ℕ) (K : ℚ) (hP : 0 < P)
    (hle : P ≤ closes.length) :
    (percent_b_calc closes P K).length = closes.length - P + 1 := by
  rw [percent_b_calc, List.length_zipWith, List.length_zip,
    length_superior_calc, length_inferior_calc, List.length_drop]
  omega

lemma window_length (a : List ℚ) (i P : ℕ) (h : i + P ≤ a.length) :
    ((a.drop i).take P).length = P := by
  simp
  omega

lemma window_eq (a : List ℚ) (i P : ℕ) (h : i + P ≤ a.length) :
    (a.drop i).take P = (List.range P).map (fun j => a.getD (i + j) 0) := by
  apply List.ext_getElem
  · simp; omega
  · intro n h1 h2
    have hn : n < P := by simp at h2; omega
    have hin : i + n < a.length := by omega
    rw [List.getElem_take, List.getElem_drop, List.getElem_map, List.getElem_range,
      List.getD_eq_getElem a 0 hin]

lemma sma_calc_getD (closes : List ℚ) (P i : ℕ) (hP : 0 < P)
    (hi : i + P ≤ closes.length) :
    (sma_calc closes P).getD i 0 = mean ((closes.drop i).take P) := by
  have hlen : i < (sma_calc closes P).length := by rw [length_sma_calc]; omega
  rw [List.getD_eq_getElem _ 0 hlen]
  have step1 : (sma_calc closes P).get ⟨i, hlen⟩ =
      ((List.range P).map
        (fun j => closes.getD (i + j) 0 *
          (List.replicate P ((1 : ℚ) / P)).getD (P - 1 - j) 0)).sum := by
    simp only [sma_calc, convolveValid, List.length_replicate, List.get_eq_getElem]
    rw [List.getElem_map, List.getElem_range]
  have hker : ∀ j ∈ List.range P,
      closes.getD (i + j) 0 * (List.replicate P ((1 : ℚ) / P)).getD (P - 1 - j) 0 =
      closes.getD (i + j) 0 * ((1 : ℚ) / P) := by
    intro j hj
    simp only [List.mem_range] at hj
    rw [List.getD_eq_getElem (List.replicate P ((1 : ℚ) / P)) 0 (by simp; omega),
      List.getElem_replicate]
  rw [List.get_eq_getElem] at step1
  rw [step1, List.map_congr_left hker, List.sum_map_mul_right,
    window_eq closes i P hi]
  simp only [mean, List.length_map, List.length_range, mul_one_div]


lemma std_calc_getD (closes : List ℚ) (P i : ℕ) (hi : i + P ≤ closes.length)
    (hP : 0 < P) :
    (std_calc closes P).getD i 0 = npstd ((closes.drop i).take P) := by
  have hlen : i < (std_calc closes P).length := by rw [length_std_calc]; omega
  rw [List.getD_eq_getElem _ 0 hlen]
  simp only [std_calc]
  rw [List.getElem_map, List.getElem_range]

lemma superior_calc_getD (closes : List ℚ) (P i : ℕ) (K : ℚ) (hP : 0 < P)
    (hi : i + P ≤ closes.length) :
    (superior_calc closes P K).getD i 0 =
      ((mean ((closes.drop i).take P) : ℚ) : ℝ) +
        (K : ℝ) * npstd ((closes.drop i).take P) := by
  have hlen : i < (superior_calc closes P K).length := by
    rw [length_superior_calc]; omega
  rw [List.getD_eq_getElem _ 0 hlen]
  simp only [superior_calc]
  rw [List.getElem_zipWith,
    ← List.getD_eq_getElem (sma_calc closes P) 0 (by rw [length_sma_calc]; omega),
    ← List.getD_eq_getElem (std_calc closes P) 0 (by rw [length_std_calc]; omega),
    sma_calc_getD closes P i hP hi, std_calc_getD closes P i hi hP]

lemma inferior_calc_getD (closes : List ℚ) (P i : ℕ) (K : ℚ) (hP : 0 < P)
    (hi : i + P ≤ closes.length) :
    (inferior_calc closes P K).getD i 0 =
      ((mean ((closes.drop i).take P) : ℚ) : ℝ) -
        (K : ℝ) * npstd ((closes.drop i).take P) := by
  have hlen : i < (inferior_calc closes P K).length := by
    rw [length_inferior_calc]; omega
  rw [List.getD_eq_getElem _ 0 hlen]
  simp only [inferior_calc]
  rw [List.getElem_zipWith,
    ← List.getD_eq_getElem (sma_calc closes P) 0 (by rw [length_sma_calc]; omega),
    ← List.getD_eq_getElem (std_calc closes P) 0 (by rw [length_std_calc]; omega),
    sma_calc_getD closes P i hP hi, std_calc_getD closes P i hi hP]

lemma percent_b_calc_getD (closes : List ℚ) (P i : ℕ) (K : ℚ) (hP : 0 < P)
    (hi : i + P ≤ closes.length) :
    (percent_b_calc closes P K).getD i .nan =
      npdiv ((closes.getD (i + P - 1) 0 : ℝ) - (inferior_calc closes P K).getD i 0)
        ((superior_calc closes P K).getD i 0 - (inferior_calc closes P K).getD i 0) := by
  have hlen : i < (percent_b_calc closes P K).length := by
    rw [length_percent_b_calc closes P K hP (by omega)]; omega
  rw [List.getD_eq_getElem _ _ hlen]
  simp only [percent_b_calc]
  rw [List.getElem_zipWith, List.getElem_zip, List.getElem_drop]
  have hidx : P - 1 + i = i + P - 1 := by omega
  simp only [hidx]
  rw [← List.getD_eq_getElem closes 0 (by omega),
    ← List.getD_eq_getElem (superior_calc closes P K) 0
      (by rw [length_superior_calc]; omega),
    ← List.getD_eq_getElem (inferior_calc closes P K) 0
      (by rw [length_inferior_calc]; omega)]

lemma sum_nonneg_all_zero (l : List ℚ) (h : ∀ x ∈ l, 0 ≤ x) (h0 : l.sum = 0) :
    ∀ x ∈ l, x = 0 := by
  induction l with
  | nil => simp
  | cons a t ih =>
    simp only [List.sum_cons] at h0
    have ha : 0 ≤ a := h a (by simp)
    have ht : 0 ≤ t.sum := List.sum_nonneg (fun x hx => h x (by simp [hx]))
    have ha0 : a = 0 := by linarith
    intro x hx
    rcases List.mem_cons.mp hx with hx | hx
    · rw [hx]; exact ha0
    · exact ih (fun y hy => h y (by simp [hy])) (by linarith) x hx

lemma variance_zero_eq_mean (w : List ℚ) (hw : w ≠ []) (h : variance w = 0) :
    ∀ x ∈ w, x = mean w := by
  have hlen : (w.length : ℚ) ≠ 0 := by
    have h1 : w.length ≠ 0 := by
      intro h0
      exact hw (List.length_eq_zero.mp h0)
    exact_mod_cast h1
  have hS : (w.map (fun x => (x - mean w) ^ 2)).sum = 0 := by
    rw [variance, div_eq_zero_iff] at h
    rcases h with h1 | h1
    · exact h1
    · exact absurd h1 hlen
  intro x hx
  have hx2 : (x - mean w) ^ 2 = 0 := by
    refine sum_nonneg_all_zero _ ?_ hS _ (List.mem_map_of_mem _ hx)
    intro y hy
    obtain ⟨z, _, rfl⟩ := List.mem_map.mp hy
    positivity
  have := pow_eq_zero_iff (two_ne_zero) |>.mp hx2
  linarith [this]

lemma npstd_zero (w : List ℚ) (h : variance w = 0) : npstd w = 0 := by
  simp [npstd, h]

lemma window_ne_nil (a : List ℚ) (i P : ℕ) (hP : 0 < P)
    (h : i + P ≤ a.length) : (a.drop i).take P ≠ [] := by
  have := window_length a i P h
  intro hnil
  rw [hnil] at this
  simp at this
  omega

lemma window_last_mem (a : List ℚ) (i P : ℕ) (hP : 0 < P)
    (h : i + P ≤ a.length) :
    a.getD (i + P - 1) 0 ∈ (a.drop i).take P := by
  rw [window_eq a i P h]
  refine List.mem_map.mpr ⟨P - 1, ?_, ?_⟩
  · simp only [List.mem_range]; omega
  · congr 1; omega

lemma percent_b_nan_of_variance_zero (closes : List ℚ) (P i : ℕ) (K : ℚ)
    (hP : 0 < P) (hi : i + P ≤ closes.length)
    (hvar : variance ((closes.drop i).take P) = 0) :
    (percent_b_calc closes P K).getD i .nan = .nan := by
  rw [percent_b_calc_getD closes P i K hP hi,
    superior_calc_getD closes P i K hP hi,
    inferior_calc_getD closes P i K hP hi, npstd_zero _ hvar]
  have hx : closes.getD (i + P - 1) 0 = mean ((closes.drop i).take P) :=
    variance_zero_eq_mean _ (window_ne_nil closes i P hP hi) hvar _
      (window_last_mem closes i P hP hi)
  rw [hx]
  simp [npdiv]

/-- Filler 1h candle used by the concrete context-detector examples. -/
def cFill : Candle := ⟨0, 100, 100, 99, 100, 100, 0⟩

/-- A filler candle with volume 50 (balances the 20-candle volume mean). -/
def cVol50 : Candle := ⟨0, 100, 100, 99, 100, 50, 0⟩

/-- Second-to-last candle of the spec's resistance example (`high = 99`). -/
def cPrev4 : Candle := ⟨0, 99, 99, 98.5, 98.9, 100, 0⟩

/-- Last candle of the spec's resistance example
(`high = 100`, `close = 99.4`, `volume = 150`). -/
def cCur4 : Candle := ⟨0, 99.4, 100, 99, 99.4, 150, 0⟩

/-- The spec's concrete resistance example: 25 candles whose last 20 volumes
average 100, ending in a `+1.01%` high break closed `0.6%` off the high on a
`1.5×` volume surge. -/
def ex4 : List Candle := List.replicate 22 cFill ++ [cVol50, cPrev4, cCur4]

/-- A wide-range last candle (`high = 200`, `low = 50`, `close = 100`) that
breaks the previous high upward and the previous low downward at once. -/
def cCur8 : Candle := ⟨0, 100, 200, 50, 100, 150, 0⟩

/-- Previous candle for the overlap examples (`high = 100`, `low = 60`). -/
def cPrev8 : Candle := ⟨0, 100, 100, 60, 100, 100, 0⟩

/-- A 25-candle series satisfying the resistance conditions and the support
conditions simultaneously. -/
def ex8 : List Candle := List.replicate 23 cPrev8 ++ [cPrev8, cCur8]

/-- A second overlap series (volume 160 on the last candle), used for the
context-detector characterisation. -/
def cCur4c : Candle := ⟨0, 100, 200, 50, 100, 160, 0⟩

/-- A 25-candle series where the mirrored support conditions hold but the
detector reports a resistance zone. -/
def ex4c : List Candle := List.replicate 23 cPrev8 ++ [cPrev8, cCur4c]

/-- C4 (amended): with at least 25 candles, the context detector returns a
resistance zone exactly when the three resistance conditions hold, and a
support zone exactly when the mirrored conditions hold AND the resistance
conditions do not (first-match); with fewer than 25 candles, or when
neither condition set holds, it returns `none`. -/
theorem C4_contexto_charact (k : List Candle) :
    (k.length < 25 → detectar_contexto_1h k = none) ∧
    (25 ≤ k.length →
      ((detectar_contexto_1h k = some ⟨"resistencia", maxima_atual k,
          fechamento_atual k, forca_volume k, timestamp_atual k, "1h"⟩) ↔
        resistencia_cond k) ∧
      ((detectar_contexto_1h k = some ⟨"suporte", minima_atual k,
          fechamento_atual k, forca_volume k, timestamp_atual k, "1h"⟩) ↔
        (suporte_cond k ∧ ¬ resistencia_cond k)) ∧
      ((¬ resistencia_cond k ∧ ¬ suporte_cond k) →
        detectar_contexto_1h k = none)) := by
  constructor
  · intro h
    simp [detectar_contexto_1h, h]
  · intro h
    have h25 : ¬ k.length < 25 := by omega
    rw [detectar_contexto_1h, if_neg h25]
    by_cases hres : resistencia_cond k
    · by_cases hsup : suporte_cond k <;> simp [hres, hsup]
    · by_cases hsup : suporte_cond k <;> simp [hres, hsup]

/-- C4 (witness): the spec's concrete example — `high[-1]=100`,
`high[-2]=99`, `close[-1]=99.4`, `volume[-1]=150` against a 20-candle
volume mean of 100 — is classified as resistance with volume strength 1.5. -/
theorem C4_contexto_charact_witness :
    25 ≤ ex4.length ∧ resistencia_cond ex4 ∧
    detectar_contexto_1h ex4 =
      some ⟨"resistencia", 100, 99.4, .val 1.5, 0, "1h"⟩ := by
  have hlen : (25 : ℕ) ≤ ex4.length := by norm_num [ex4]
  have hres : resistencia_cond ex4 := by
    norm_num [resistencia_cond, maxima_atual, maxima_anterior, fechamento_atual,
      forca_volume, volume_atual, ultimos, pyNegD, mean, npdiv, NpF.gt, ex4,
      cFill, cVol50, cPrev4, cCur4, List.replicate]
  refine ⟨hlen, hres, ?_⟩
  have h := ((C4_contexto_charact ex4).2 hlen).1.mpr hres
  rw [h]
  norm_num [maxima_atual, fechamento_atual, forca_volume, volume_atual,
    timestamp_atual, ultimos, pyNegD, mean, npdiv, ex4,
    cFill, cVol50, cPrev4, cCur4, List.replicate]

/-- C4 (counterexample): on `ex4c` the mirrored support conditions hold,
yet the detector returns a resistance zone, refuting "a support zone
exactly when the mirrored low-side conditions hold". -/
theorem C4_counterexample :
    25 ≤ ex4c.length ∧ suporte_cond ex4c ∧
    (detectar_contexto_1h ex4c).map Contexto.tipo = some "resistencia" := by
  have hlen : (25 : ℕ) ≤ ex4c.length := by norm_num [ex4c]
  have hsup : suporte_cond ex4c := by
    norm_num [suporte_cond, minima_atual, minima_anterior, fechamento_atual,
      forca_volume, volume_atual, ultimos, pyNegD, mean, npdiv, NpF.gt, ex4c,
      cPrev8, cCur4c, List.replicate]
  have hres : resistencia_cond ex4c := by
    norm_num [resistencia_cond, maxima_atual, maxima_anterior, fechamento_atual,
      forca_volume, volume_atual, ultimos, pyNegD, mean, npdiv, NpF.gt, ex4c,
      cPrev8, cCur4c, List.replicate]
  refine ⟨hlen, hsup, ?_⟩
  rw [detectar_contexto_1h, if_neg (by omega), if_pos hres]
  simp

lemma ex8_len : 25 ≤ ex8.length := by norm_num [ex8]

lemma ex8_resistencia : resistencia_cond ex8 := by
  norm_num [resistencia_cond, maxima_atual, maxima_anterior, fechamento_atual,
    forca_volume, volume_atual, ultimos, pyNegD, mean, npdiv, NpF.gt, ex8,
    cPrev8, cCur8, List.replicate]

lemma ex8_suporte : suporte_cond ex8 := by
  norm_num [suporte_cond, minima_atual, minima_anterior, fechamento_atual,
    forca_volume, volume_atual, ultimos, pyNegD, mean, npdiv, NpF.gt, ex8,
    cPrev8, cCur8, List.replicate]

/-- C8 (counterexample): a wide-range outside candle satisfies the
resistance conditions and the support conditions simultaneously, refuting
the claimed mutual exclusivity. -/
theorem C8_counterexample :
    25 ≤ ex8.length ∧ resistencia_cond ex8 ∧ suporte_cond ex8 :=
  ⟨ex8_len, ex8_resistencia, ex8_suporte⟩

/-- C8 (amended): the two condition sets are not mutually exclusive; on any
series of at least 25 candles satisfying both, the first-match tie-break is
exercised and deterministic — resistance wins. -/
theorem C8_tie_break (k : List Candle) (h25 : 25 ≤ k.length)
    (hres : resistencia_cond k) (hsup : suporte_cond k) :
    detectar_contexto_1h k = some ⟨"resistencia", maxima_atual k,
      fechamento_atual k, forca_volume k, timestamp_atual k, "1h"⟩ := by
  rw [detectar_contexto_1h, if_neg (by omega), if_pos hres]

/-- C8 (witness): on the concrete overlap series the detector reports the
resistance zone. -/
theorem C8_tie_break_witness :
    resistencia_cond ex8 ∧ suporte_cond ex8 ∧
    detectar_contexto_1h ex8 =
      some ⟨"resistencia", 200, 100, .val (60 / 41), 0, "1h"⟩ := by
  refine ⟨ex8_resistencia, ex8_suporte, ?_⟩
  rw [C8_tie_break ex8 ex8_len ex8_resistencia ex8_suporte]
  norm_num [maxima_atual, fechamento_atual, forca_volume, volume_atual,
    timestamp_atual, ultimos, pyNegD, mean, npdiv, ex8,
    cPrev8, cCur8, List.replicate]

/-- Resistance context of the spec's confirmer example: zone 100, volume
strength exactly 1.5. -/
def ctx2 : Contexto := ⟨"resistencia", 100, 99.4, .val 1.5, 0, "1h"⟩

/-- Upper-consolidation entry of the spec's confirmer example: entry price 98. -/
def ent2 : Entrada := ⟨"lateralizacao_superior", .nan, 0.002, 98, 0, "5m"⟩

/-- C2 (counterexample): at `zonePrice = 100`, `entryPrice = 98` and volume
strength exactly 1.5 the confirmer returns SELL with risk 2.0 but
confidence MÉDIA, not ALTA: the 1.5 boundary is exclusive for HIGH. -/
theorem C2_counterexample :
    confirmar_sinal "BTCUSDT" "01/02 10:00:00" (some ctx2) (some ent2) =
      .ok (some ⟨"VENDA", "BTCUSDT", 98, 100, 2, .val 1.5,
        "01/02 10:00:00", "1h", "5m", "MÉDIA"⟩) ∧
    ("MÉDIA" : String) ≠ "ALTA" := by
  constructor
  · norm_num [confirmar_sinal, ctx2, ent2, pydivE, NpF.gt]
    rw [abs_of_pos (by norm_num : (0 : ℚ) < 1 / 50)]
    norm_num
  · decide

/-- C2 (amended): a resistance context with an upper-consolidation entry
and positive zone price yields SELL with
`riskPercent = |zonePrice − entryPrice| / zonePrice × 100`, and confidence
ALTA only for volume strength strictly above 1.5 — at exactly 1.5 the
confidence is MÉDIA. -/
theorem C2_confirmer_boundary (symbol now : String) (ctx : Contexto)
    (ent : Entrada) (hc : ctx.tipo = "resistencia")
    (he : ent.tipo = "lateralizacao_superior") (hz : 0 < ctx.preco_zona) :
    confirmar_sinal symbol now (some ctx) (some ent) =
      .ok (some ⟨"VENDA", symbol, ent.preco_atual, ctx.preco_zona,
        |ctx.preco_zona - ent.preco_atual| / ctx.preco_zona * 100,
        ctx.forca_volume, now, "1h", "5m",
        if NpF.gt ctx.forca_volume 1.5 then "ALTA" else "MÉDIA"⟩) ∧
    (ctx.forca_volume = .val 1.5 →
      (if NpF.gt ctx.forca_volume 1.5 then "ALTA" else "MÉDIA") = "MÉDIA") := by
  constructor
  · simp only [confirmar_sinal, if_pos (And.intro hc he), pydivE,
      if_neg (ne_of_gt hz)]
    rw [abs_div, abs_of_pos hz]
  · intro hfv
    rw [hfv]
    simp [NpF.gt]

/-- C2 (witness): the amended statement evaluated at the spec's concrete
numbers gives SELL, risk 2.0 and confidence MÉDIA. -/
theorem C2_confirmer_boundary_witness :
    confirmar_sinal "BTCUSDT" "01/02 10:00:00" (some ctx2) (some ent2) =
      .ok (some ⟨"VENDA", "BTCUSDT", 98, 100, 2, .val 1.5,
        "01/02 10:00:00", "1h", "5m", "MÉDIA"⟩) := by
  have h := C2_confirmer_boundary "BTCUSDT" "01/02 10:00:00" ctx2 ent2
    (by decide) (by norm_num [ent2]) (by norm_num [ctx2])
  rw [h.1]
  norm_num [ctx2, ent2, NpF.gt]

/-- Misaligned lower-consolidation entry used for the pairing witness. -/
def ent7 : Entrada := ⟨"lateralizacao_inferior", .nan, 0.002, 98, 0, "5m"⟩

/-- C7: the confirmer yields no signal when either classification is
absent or when the pairing is misaligned, and every produced signal comes
from a direction-compatible pairing (resistance with upper consolidation →
SELL, support with lower consolidation → BUY). -/
theorem C7_signal_pairing (symbol now : String) (ctx : Option Contexto)
    (ent : Option Entrada) :
    (confirmar_sinal symbol now none ent = .ok none) ∧
    (confirmar_sinal symbol now ctx none = .ok none) ∧
    (∀ c e, ctx = some c → ent = some e →
      ¬(c.tipo = "resistencia" ∧ e.tipo = "lateralizacao_superior") →
      ¬(c.tipo = "suporte" ∧ e.tipo = "lateralizacao_inferior") →
      confirmar_sinal symbol now ctx ent = .ok none) ∧
    (∀ s, confirmar_sinal symbol now ctx ent = .ok (some s) →
      ∃ c e, ctx = some c ∧ ent = some e ∧
        ((c.tipo = "resistencia" ∧ e.tipo = "lateralizacao_superior" ∧
            s.acao = "VENDA") ∨
          (c.tipo = "suporte" ∧ e.tipo = "lateralizacao_inferior" ∧
            s.acao = "COMPRA"))) := by
  refine ⟨rfl, ?_, ?_, ?_⟩
  · cases ctx <;> rfl
  · rintro c e rfl rfl h1 h2
    simp only [confirmar_sinal, if_neg h1, if_neg h2]
  · intro s hs
    cases ctx with
    | none => exact absurd hs (by simp [confirmar_sinal])
    | some c =>
      cases ent with
      | none => exact absurd hs (by simp [confirmar_sinal])
      | some e =>
        refine ⟨c, e, rfl, rfl, ?_⟩
        by_cases h1 : c.tipo = "resistencia" ∧ e.tipo = "lateralizacao_superior"
        · refine Or.inl ⟨h1.1, h1.2, ?_⟩
          simp only [confirmar_sinal, if_pos h1, pydivE] at hs
          by_cases hz : c.preco_zona = 0
          · rw [if_pos hz] at hs
            exact absurd hs (by simp)
          · rw [if_neg hz] at hs
            simp only [Except.ok.injEq, Option.some.injEq] at hs
            rw [← hs]
        · by_cases h2 : c.tipo = "suporte" ∧ e.tipo = "lateralizacao_inferior"
          · refine Or.inr ⟨h2.1, h2.2, ?_⟩
            simp only [confirmar_sinal, if_neg h1, if_pos h2, pydivE] at hs
            by_cases hz : c.preco_zona = 0
            · rw [if_pos hz] at hs
              exact absurd hs (by simp)
            · rw [if_neg hz] at hs
              simp only [Except.ok.injEq, Option.some.injEq] at hs
              rw [← hs]
          · simp only [confirmar_sinal, if_neg h1, if_neg h2] at hs
            exact absurd hs (by simp)

/-- C7 (witness): a resistance context paired with a lower consolidation
yields no signal. -/
theorem C7_signal_pairing_witness :
    confirmar_sinal "BTCUSDT" "01/02 10:00:00" (some ctx2) (some ent7) =
      .ok none := by
  refine (C7_signal_pairing "BTCUSDT" "01/02 10:00:00" (some ctx2)
    (some ent7)).2.2.1 ctx2 ent7 rfl rfl ?_ ?_
  · intro h
    exact absurd h.2 (by decide)
  · intro h
    exact absurd h.1 (by decide)

lemma chave_unica_ne (s1 s3 : Sinal) (hsym : s3.symbol = s1.symbol)
    (hacao : s3.acao = s1.acao)
    (hdata : s3.timestamp.take 5 ≠ s1.timestamp.take 5) :
    chave_unica s3 ≠ chave_unica s1 := by
  intro h
  apply hdata
  rw [chave_unica, chave_unica, hsym, hacao] at h
  have hd := congrArg String.data h
  simp only [String.data_append] at hd
  exact String.ext (List.append_cancel_left hd)

/-- C9: once a signal's key has been recorded by a successful emission,
every later attempt with the same instrument, action and calendar date
returns `false` and leaves the state unchanged, while the same instrument
and action on a different calendar date (not previously seen) passes the
gate and is recorded. -/
theorem C9_dedup_gate (st : TelegramAlerta) (s1 s2 s3 : Sinal)
    (c2 k2 : Bool)
    (h1 : chave_unica s1 ∉ st.alertas_enviados)
    (h2sym : s2.symbol = s1.symbol) (h2acao : s2.acao = s1.acao)
    (h2data : s2.timestamp.take 5 = s1.timestamp.take 5)
    (h3sym : s3.symbol = s1.symbol) (h3acao : s3.acao = s1.acao)
    (h3data : s3.timestamp.take 5 ≠ s1.timestamp.take 5)
    (h3new : chave_unica s3 ∉ st.alertas_enviados) :
    (enviar_sinal st s1 true true).1 = true ∧
    chave_unica s1 ∈ (enviar_sinal st s1 true true).2.alertas_enviados ∧
    enviar_sinal (enviar_sinal st s1 true true).2 s2 c2 k2 =
      (false, (enviar_sinal st s1 true true).2) ∧
    (enviar_sinal (enviar_sinal st s1 true true).2 s3 true true).1 = true ∧
    chave_unica s3 ∈
      (enviar_sinal (enviar_sinal st s1 true true).2 s3 true
        true).2.alertas_enviados := by
  have e1 : enviar_sinal st s1 true true =
      (true, ⟨chave_unica s1 :: st.alertas_enviados,
        st.historico_sinais ++ [s1]⟩) := by
    rw [enviar_sinal]
    simp [h1]
  have hk2 : chave_unica s2 = chave_unica s1 := by
    rw [chave_unica, chave_unica, h2sym, h2acao, h2data]
  have hk3 : chave_unica s3 ≠ chave_unica s1 :=
    chave_unica_ne s1 s3 h3sym h3acao h3data
  rw [e1]
  have hm2 : chave_unica s2 ∈ chave_unica s1 :: st.alertas_enviados := by
    rw [hk2]
    exact List.mem_cons_self _ _
  have hm3 : chave_unica s3 ∉ chave_unica s1 :: st.alertas_enviados := by
    intro hmem
    rcases List.mem_cons.mp hmem with hmem | hmem
    · exact hk3 hmem
    · exact h3new hmem
  refine ⟨rfl, List.mem_cons_self _ _, ?_, ?_, ?_⟩
  · rw [enviar_sinal]
    simp [hm2]
  · rw [enviar_sinal]
    simp [hm3]
  · rw [enviar_sinal]
    simp [hm3]

/-- Initial alert state: nothing sent, empty history. -/
def st0 : TelegramAlerta := ⟨[], []⟩

/-- First concrete signal (BTCUSDT SELL on 01/02). -/
def sinal1 : Sinal :=
  ⟨"VENDA", "BTCUSDT", 98, 100, 2, .val 1.5, "01/02 10:00:00", "1h", "5m", "MÉDIA"⟩

/-- Equivalent signal later the same calendar day. -/
def sinal2 : Sinal :=
  ⟨"VENDA", "BTCUSDT", 97, 100, 3, .val 1.6, "01/02 18:30:00", "1h", "5m", "ALTA"⟩

/-- Same instrument and action on the next calendar day. -/
def sinal3 : Sinal :=
  ⟨"VENDA", "BTCUSDT", 96, 100, 4, .val 1.4, "02/02 09:00:00", "1h", "5m", "MÉDIA"⟩

/-- C9 (witness): the gate run on concrete BTCUSDT SELL signals — second
same-day call refused without recording, next-day call accepted. -/
theorem C9_dedup_gate_witness :
    (enviar_sinal st0 sinal1 true true).1 = true ∧
    chave_unica sinal1 ∈ (enviar_sinal st0 sinal1 true true).2.alertas_enviados ∧
    enviar_sinal (enviar_sinal st0 sinal1 true true).2 sinal2 true true =
      (false, (enviar_sinal st0 sinal1 true true).2) ∧
    (enviar_sinal (enviar_sinal st0 sinal1 true true).2 sinal3 true true).1 = true ∧
    chave_unica sinal3 ∈
      (enviar_sinal (enviar_sinal st0 sinal1 true true).2 sinal3 true
        true).2.alertas_enviados :=
  C9_dedup_gate st0 sinal1 sinal2 sinal3 true true (by decide) (by decide)
    (by decide) (by decide) (by decide) (by decide) (by decide) (by decide)

/-- C10: if delivery fails — missing chat configuration or a Telegram
error — the sender returns `false` with the dedup set and the history
unchanged, so the same signal can still be emitted later; the key is
recorded and the history line appended only on successful delivery. -/
theorem C10_failure_no_record (st : TelegramAlerta) (s : Sinal) (c k : Bool)
    (h : chave_unica s ∉ st.alertas_enviados) :
    enviar_sinal st s false k = (false, st) ∧
    enviar_sinal st s c false = (false, st) ∧
    (enviar_sinal (enviar_sinal st s false k).2 s true true).1 = true ∧
    enviar_sinal st s true true =
      (true, ⟨chave_unica s :: st.alertas_enviados,
        st.historico_sinais ++ [s]⟩) := by
  have efail : ∀ cc kk : Bool, cc = false ∨ kk = false →
      enviar_sinal st s cc kk = (false, st) := by
    intro cc kk hor
    rw [enviar_sinal]
    rcases hor with rfl | rfl
    · simp [h]
    · cases cc <;> simp [h]
  have eok : enviar_sinal st s true true =
      (true, ⟨chave_unica s :: st.alertas_enviados,
        st.historico_sinais ++ [s]⟩) := by
    rw [enviar_sinal]
    simp [h]
  refine ⟨efail false k (Or.inl rfl), efail c false (Or.inr rfl), ?_, eok⟩
  rw [efail false k (Or.inl rfl), eok]

/-- C10 (witness): concrete run — a failed delivery leaves the state
unchanged and a retry the same day succeeds. -/
theorem C10_failure_no_record_witness :
    enviar_sinal st0 sinal1 false true = (false, st0) ∧
    enviar_sinal st0 sinal1 true false = (false, st0) ∧
    (enviar_sinal (enviar_sinal st0 sinal1 false true).2 sinal1 true true).1 = true ∧
    enviar_sinal st0 sinal1 true true =
      (true, ⟨chave_unica sinal1 :: st0.alertas_enviados,
        st0.historico_sinais ++ [sinal1]⟩) :=
  C10_failure_no_record st0 sinal1 true true (by decide)

/-- The spec's band definition: the arithmetic mean of the window of
`P` consecutive closes starting at position `i` (so ending at position
`i + P - 1` of the input series). -/
def specMiddle (closes : List ℚ) (P i : ℕ) : ℚ := mean ((closes.drop i).take P)

/-- The spec's band definition: the population standard deviation of the
window, with divisor `P` (the period), not `P - 1`. -/
noncomputable def specStd (closes : List ℚ) (P i : ℕ) : ℝ :=
  Real.sqrt (((((closes.drop i).take P).map
    (fun x => (x - specMiddle closes P i) ^ 2)).sum / (P : ℚ) : ℚ) : ℝ)

lemma npstd_window_eq_specStd (closes : List ℚ) (P i : ℕ)
    (hi : i + P ≤ closes.length) :
    npstd ((closes.drop i).take P) = specStd closes P i := by
  rw [npstd, specStd, variance, specMiddle, window_length closes i P hi]

/-- C6: with `len(series) ≥ period ≥ 1` the calculator returns bands where
index `i` is the window of `period` consecutive closes ending at series
position `i + P - 1`: `middle` is its arithmetic mean, `upper`/`lower` are
`middle ± multiplier · std` with `std` the population standard deviation
(divisor = period), and `%B` at `i` divides against the close at position
`i + P - 1`; with fewer closes than the period it returns `none`
(insufficient data). -/
theorem C6_bands_spec (candles : List Candle) (P : ℕ) (K : ℚ) :
    (candles.length < P → calcular candles P K = none) ∧
    (0 < P → P ≤ candles.length →
      ∃ bb, calcular candles P K = some bb ∧
        bb.media.length = candles.length - P + 1 ∧
        bb.superior.length = candles.length - P + 1 ∧
        bb.inferior.length = candles.length - P + 1 ∧
        bb.percent_b.length = candles.length - P + 1 ∧
        ∀ i, i < candles.length - P + 1 →
          bb.media.getD i 0 = specMiddle (candles.map Candle.close) P i ∧
          bb.superior.getD i 0 =
            ((specMiddle (candles.map Candle.close) P i : ℚ) : ℝ) +
              (K : ℝ) * specStd (candles.map Candle.close) P i ∧
          bb.inferior.getD i 0 =
            ((specMiddle (candles.map Candle.close) P i : ℚ) : ℝ) -
              (K : ℝ) * specStd (candles.map Candle.close) P i ∧
          bb.percent_b.getD i .nan =
            npdiv (((candles.map Candle.close).getD (i + P - 1) 0 : ℝ) -
                bb.inferior.getD i 0)
              (bb.superior.getD i 0 - bb.inferior.getD i 0)) := by
  constructor
  · intro h
    rw [calcular, if_pos h]
  · intro hP hle
    rw [calcular, if_neg (by omega)]
    have hlc : (candles.map Candle.close).length = candles.length := by simp
    refine ⟨_, rfl, ?_, ?_, ?_, ?_, ?_⟩
    · rw [length_sma_calc, hlc]
    · rw [length_superior_calc, hlc]
    · rw [length_inferior_calc, hlc]
    · rw [length_percent_b_calc _ _ _ hP (by omega), hlc]
    · intro i hi
      have hiw : i + P ≤ (candles.map Candle.close).length := by omega
      refine ⟨?_, ?_, ?_, ?_⟩
      · rw [sma_calc_getD _ _ _ hP hiw, specMiddle]
      · rw [superior_calc_getD _ _ _ _ hP hiw,
          npstd_window_eq_specStd _ _ _ hiw, specMiddle]
      · rw [inferior_calc_getD _ _ _ _ hP hiw,
          npstd_window_eq_specStd _ _ _ hiw, specMiddle]
      · rw [percent_b_calc_getD _ _ _ _ hP hiw]

/-- Two-candle series with closes 1 and 3 for the band-calculator witness. -/
def exC6 : List Candle := [⟨0, 1, 1, 1, 1, 1, 0⟩, ⟨0, 3, 3, 3, 3, 1, 0⟩]

/-- C6 (witness): on closes `[1, 3]` with period 2 and multiplier 2 the
bands are `middle = 2`, `std = 1`, `upper = 4`, `lower = 0` and
`%B = 3/4`; a one-candle prefix is insufficient data. -/
theorem C6_bands_spec_witness :
    ∃ bb, calcular exC6 2 2 = some bb ∧
      bb.media.getD 0 0 = 2 ∧ bb.superior.getD 0 0 = 4 ∧
      bb.inferior.getD 0 0 = 0 ∧ bb.percent_b.getD 0 .nan = .val (3 / 4) ∧
      calcular (exC6.take 1) 2 2 = none := by
  obtain ⟨bb, hcalc, _, _, _, _, hprops⟩ :=
    (C6_bands_spec exC6 2 2).2 (by norm_num) (by norm_num [exC6])
  obtain ⟨hm, hs, hi2, hpb⟩ := hprops 0 (by norm_num [exC6])
  have hmid : specMiddle (exC6.map Candle.close) 2 0 = 2 := by
    norm_num [specMiddle, mean, exC6]
  have hsum : ((((exC6.map Candle.close).drop 0).take 2).map
      (fun x => (x - specMiddle (exC6.map Candle.close) 2 0) ^ 2)).sum /
        ((2 : ℕ) : ℚ) = 1 := by
    rw [hmid]
    norm_num [exC6]
  have hstd : specStd (exC6.map Candle.close) 2 0 = 1 := by
    rw [specStd, hsum]
    norm_num
  refine ⟨bb, hcalc, ?_, ?_, ?_, ?_, ?_⟩
  · rw [hm, hmid]
  · rw [hs, hmid, hstd]
    norm_num
  · rw [hi2, hmid, hstd]
    norm_num
  · rw [hpb, hi2, hs, hmid, hstd]
    norm_num [npdiv, exC6]
  · exact (C6_bands_spec (exC6.take 1) 2 2).1 (by norm_num [exC6])

lemma pyGetNeg_eq_getD {α : Type} (l : List α) (i : ℕ) (d : α)
    (h1 : 1 ≤ i) (h2 : i ≤ l.length) :
    pyGetNeg l i = some (l.getD (l.length - i) d) := by
  rw [pyGetNeg, dif_pos ⟨h1, h2⟩, List.get_eq_getElem,
    List.getD_eq_getElem l d (by omega)]

lemma amplitudesE_ok (klines : List Candle)
    (h4 : (pyNegD klines 4).open_price ≠ 0)
    (h3 : (pyNegD klines 3).open_price ≠ 0)
    (h2 : (pyNegD klines 2).open_price ≠ 0) :
    amplitudesE klines = .ok (amplitudes klines) := by
  rw [amplitudesE, amplitudes]
  rw [pydivE, if_neg h4, pydivE, if_neg h3, pydivE, if_neg h2]

lemma NpF.not_lt_of_gt (x : NpF ℝ) (h : NpF.gt x 0.95) : ¬ NpF.lt x 0.05 := by
  cases x with
  | val a =>
    intro hl
    simp only [NpF.gt] at h
    simp only [NpF.lt] at hl
    linarith
  | nan => exact h.elim
  | pinf => exact fun hl => hl
  | ninf => exact h.elim

lemma detectar_entrada_red (klines : List Candle) (bb : BB)
    (h15 : 15 ≤ klines.length) (h2 : 2 ≤ bb.percent_b.length)
    (h4o : (pyNegD klines 4).open_price ≠ 0)
    (h3o : (pyNegD klines 3).open_price ≠ 0)
    (h2o : (pyNegD klines 2).open_price ≠ 0) :
    detectar_entrada_5m klines (some bb) =
      (if NpF.gt (bb.percent_b.getD (bb.percent_b.length - 2) .nan) 0.95 ∧
          mean (amplitudes klines) < 0.003 then
        .ok (some ⟨"lateralizacao_superior",
          bb.percent_b.getD (bb.percent_b.length - 2) .nan,
          mean (amplitudes klines), (pyNegD klines 2).close,
          (pyNegD klines 2).open_time, "5m"⟩)
      else if NpF.lt (bb.percent_b.getD (bb.percent_b.length - 2) .nan) 0.05 ∧
          mean (amplitudes klines) < 0.003 then
        .ok (some ⟨"lateralizacao_inferior",
          bb.percent_b.getD (bb.percent_b.length - 2) .nan,
          mean (amplitudes klines), (pyNegD klines 2).close,
          (pyNegD klines 2).open_time, "5m"⟩)
      else .ok none) := by
  simp only [detectar_entrada_5m]
  rw [if_neg (by omega),
    pyGetNeg_eq_getD bb.percent_b 2 NpF.nan (by omega) (by omega),
    amplitudesE_ok klines h4o h3o h2o]

/-- C5: given at least 15 candles, a band list long enough to read `%B` of
the last closed candle, and nonzero opens on the three closed candles, the
detector returns an upper consolidation exactly when `%B[-2] > 0.95` and
the mean relative amplitude is below 0.003 (symmetrically a lower
consolidation for `%B[-2] < 0.05`), and the recorded price and timestamp
are the close and open time of the candle at index `-2`, never the
in-progress candle at `-1`. -/
theorem C5_entrada_charact (klines : List Candle) (bb : BB)
    (h15 : 15 ≤ klines.length) (h2 : 2 ≤ bb.percent_b.length)
    (h4o : (pyNegD klines 4).open_price ≠ 0)
    (h3o : (pyNegD klines 3).open_price ≠ 0)
    (h2o : (pyNegD klines 2).open_price ≠ 0) :
    (detectar_entrada_5m klines (some bb) =
        .ok (some ⟨"lateralizacao_superior",
          bb.percent_b.getD (bb.percent_b.length - 2) .nan,
          mean (amplitudes klines), (pyNegD klines 2).close,
          (pyNegD klines 2).open_time, "5m"⟩) ↔
      (NpF.gt (bb.percent_b.getD (bb.percent_b.length - 2) .nan) 0.95 ∧
        mean (amplitudes klines) < 0.003)) ∧
    (detectar_entrada_5m klines (some bb) =
        .ok (some ⟨"lateralizacao_inferior",
          bb.percent_b.getD (bb.percent_b.length - 2) .nan,
          mean (amplitudes klines), (pyNegD klines 2).close,
          (pyNegD klines 2).open_time, "5m"⟩) ↔
      (NpF.lt (bb.percent_b.getD (bb.percent_b.length - 2) .nan) 0.05 ∧
        mean (amplitudes klines) < 0.003)) := by
  rw [detectar_entrada_red klines bb h15 h2 h4o h3o h2o]
  constructor
  · by_cases g1 : NpF.gt (bb.percent_b.getD (bb.percent_b.length - 2) .nan) 0.95 ∧
        mean (amplitudes klines) < 0.003
    · rw [if_pos g1]
      exact iff_of_true rfl g1
    · rw [if_neg g1]
      refine iff_of_false ?_ g1
      by_cases g2 : NpF.lt (bb.percent_b.getD (bb.percent_b.length - 2) .nan) 0.05 ∧
          mean (amplitudes klines) < 0.003
      · rw [if_pos g2]
        simp
      · rw [if_neg g2]
        simp
  · by_cases g1 : NpF.gt (bb.percent_b.getD (bb.percent_b.length - 2) .nan) 0.95 ∧
        mean (amplitudes klines) < 0.003
    · rw [if_pos g1]
      refine iff_of_false (by simp) ?_
      intro g2
      exact NpF.not_lt_of_gt _ g1.1 g2.1
    · rw [if_neg g1]
      by_cases g2 : NpF.lt (bb.percent_b.getD (bb.percent_b.length - 2) .nan) 0.05 ∧
          mean (amplitudes klines) < 0.003
      · rw [if_pos g2]
        exact iff_of_true rfl g2
      · rw [if_neg g2]
        exact iff_of_false (by simp) g2

/-- A calm 5m candle: open 1000, high 1001, low 999 — relative amplitude
exactly 0.002. -/
def c5 : Candle := ⟨0, 1000, 1001, 999, 1000.5, 10, 0⟩

/-- Fifteen calm candles for the entry-detector witness. -/
def ex5 : List Candle := List.replicate 15 c5

/-- A band set whose `%B` list reads `0.97` at index `-2`. -/
def bb5 : BB := ⟨[], [], [], [.val 0.9, .val 0.97, .val 0.5], 20, 2⟩

/-- C5 (witness): `%B[-2] = 0.97` with mean amplitude `0.002` yields the
upper-consolidation event carrying the closed candle's close and open
time. -/
theorem C5_entrada_charact_witness :
    detectar_entrada_5m ex5 (some bb5) =
      .ok (some ⟨"lateralizacao_superior", .val 0.97, 0.002, 1000.5, 0, "5m"⟩) := by
  have h15 : (15 : ℕ) ≤ ex5.length := by norm_num [ex5]
  have h2 : (2 : ℕ) ≤ bb5.percent_b.length := by norm_num [bb5]
  have h4o : (pyNegD ex5 4).open_price ≠ 0 := by
    norm_num [pyNegD, ex5, c5, List.replicate]
  have h3o : (pyNegD ex5 3).open_price ≠ 0 := by
    norm_num [pyNegD, ex5, c5, List.replicate]
  have h2o : (pyNegD ex5 2).open_price ≠ 0 := by
    norm_num [pyNegD, ex5, c5, List.replicate]
  have hpb : bb5.percent_b.getD (bb5.percent_b.length - 2) NpF.nan = .val 0.97 := rfl
  have ham : mean (amplitudes ex5) = 0.002 := by
    norm_num [amplitudes, mean, pyNegD, ex5, c5, List.replicate]
  have h := (C5_entrada_charact ex5 bb5 h15 h2 h4o h3o h2o).1.mpr
    ⟨by rw [hpb]; norm_num [NpF.gt], by rw [ham]; norm_num⟩
  rw [h, hpb, ham]
  norm_num [pyNegD, ex5, c5, List.replicate]

/-- A constant candle (all prices 5). -/
def c3 : Candle := ⟨0, 5, 5, 5, 5, 5, 0⟩

/-- Twenty constant candles: enough for the band calculator (period 20)
and the length-15 detector guard, but giving a one-element `%B` list. -/
def ex3 : List Candle := List.replicate 20 c3

/-- The band set the calculator produces on `ex3` with period 20. -/
noncomputable def bb3 : BB := ⟨superior_calc (ex3.map Candle.close) 20 2,
  sma_calc (ex3.map Candle.close) 20,
  inferior_calc (ex3.map Candle.close) 20 2,
  percent_b_calc (ex3.map Candle.close) 20 2, 20, 2⟩

lemma calcular_ex3 : calcular ex3 20 2 = some bb3 := by
  rw [calcular, if_neg (by norm_num [ex3])]
  rfl

lemma bb3_pb_len : bb3.percent_b.length = 1 := by
  show (percent_b_calc (ex3.map Candle.close) 20 2).length = 1
  rw [length_percent_b_calc _ _ _ (by norm_num) (by norm_num [ex3])]
  norm_num [ex3]

/-- C3 (counterexample): on a 20-candle series (length ≥ 15, bands
non-null from that same series) the `%B` list has a single entry, so the
read `bb['percent_b'][-2]` raises `IndexError` instead of returning an
event or `None`. -/
theorem C3_counterexample :
    15 ≤ ex3.length ∧ calcular ex3 20 2 = some bb3 ∧
    detectar_entrada_5m ex3 (some bb3) = .error .indexError := by
  refine ⟨by norm_num [ex3], calcular_ex3, ?_⟩
  simp only [detectar_entrada_5m]
  rw [if_neg (by norm_num [ex3])]
  have hnone : pyGetNeg bb3.percent_b 2 = none := by
    rw [pyGetNeg, dif_neg]
    intro h
    have := bb3_pb_len
    omega
  rw [hnone]

/-- C3 (amended): the detector is total once the series is long enough for
the `%B` read as well — at least `period + 1` candles (so the `%B` list
has at least two entries) — and the three closed candles have nonzero
opens; it then returns an event or `None` and never raises. -/
theorem C3_detector_total (klines : List Candle) (P : ℕ) (K : ℚ) (bb : BB)
    (hP : 0 < P) (h15 : 15 ≤ klines.length) (hP1 : P + 1 ≤ klines.length)
    (hcalc : calcular klines P K = some bb)
    (h4o : (pyNegD klines 4).open_price ≠ 0)
    (h3o : (pyNegD klines 3).open_price ≠ 0)
    (h2o : (pyNegD klines 2).open_price ≠ 0) :
    ∃ r : Option Entrada, detectar_entrada_5m klines (some bb) = .ok r := by
  rw [calcular, if_neg (by omega)] at hcalc
  have hbb := Option.some.inj hcalc
  have hpb : bb.percent_b = percent_b_calc (klines.map Candle.close) P K := by
    rw [← hbb]
  have hlen : 2 ≤ bb.percent_b.length := by
    rw [hpb, length_percent_b_calc _ _ _ hP
      (by simp only [List.length_map]; omega)]
    simp only [List.length_map]
    omega
  rw [detectar_entrada_red klines bb h15 hlen h4o h3o h2o]
  split_ifs <;> exact ⟨_, rfl⟩

/-- Twenty-one constant candles: one more than the period, so the `%B`
read is in range. -/
def ex1 : List Candle := List.replicate 21 c3

/-- The band set the calculator produces on `ex1` with period 20. -/
noncomputable def bb1 : BB := ⟨superior_calc (ex1.map Candle.close) 20 2,
  sma_calc (ex1.map Candle.close) 20,
  inferior_calc (ex1.map Candle.close) 20 2,
  percent_b_calc (ex1.map Candle.close) 20 2, 20, 2⟩

lemma calcular_ex1 : calcular ex1 20 2 = some bb1 := by
  rw [calcular, if_neg (by norm_num [ex1])]
  rfl

/-- C3 (witness): the amended totality statement at 21 constant candles. -/
theorem C3_detector_total_witness :
    ∃ r : Option Entrada, detectar_entrada_5m ex1 (some bb1) = .ok r :=
  C3_detector_total ex1 20 2 bb1 (by norm_num) (by norm_num [ex1])
    (by norm_num [ex1]) calcular_ex1
    (by norm_num [pyNegD, ex1, c3, List.replicate])
    (by norm_num [pyNegD, ex1, c3, List.replicate])
    (by norm_num [pyNegD, ex1, c3, List.replicate])

/-- C1 (amended): a zero-variance window makes `upper == lower`, and the
calculator then stores NaN (`0/0` in NumPy) at that `%B` index — it is
silently propagated, not reported as `None` — while the entry detector
reading a NaN `%B[-2]` classifies no touch and returns `None` (both NaN
guards compare false), provided the amplitude loop itself does not raise. -/
theorem C1_nan_no_touch :
    (∀ (candles : List Candle) (P : ℕ) (K : ℚ) (bb : BB) (i : ℕ),
      0 < P → calcular candles P K = some bb → i + P ≤ candles.length →
      variance (((candles.map Candle.close).drop i).take P) = 0 →
      bb.percent_b.getD i .nan = .nan) ∧
    (∀ (klines : List Candle) (bb : BB),
      15 ≤ klines.length → pyGetNeg bb.percent_b 2 = some .nan →
      (pyNegD klines 4).open_price ≠ 0 →
      (pyNegD klines 3).open_price ≠ 0 →
      (pyNegD klines 2).open_price ≠ 0 →
      detectar_entrada_5m klines (some bb) = .ok none) := by
  constructor
  · intro candles P K bb i hP hcalc hiP hvar
    have hle : ¬ candles.length < P := by
      intro hlt
      rw [calcular, if_pos hlt] at hcalc
      exact Option.noConfusion hcalc
    rw [calcular, if_neg hle] at hcalc
    have hbb := Option.some.inj hcalc
    have hpb : bb.percent_b = percent_b_calc (candles.map Candle.close) P K := by
      rw [← hbb]
    rw [hpb]
    exact percent_b_nan_of_variance_zero _ _ _ _ hP
      (by simp only [List.length_map]; omega) hvar
  · intro klines bb h15 hnan h4o h3o h2o
    have h2len : 2 ≤ bb.percent_b.length := by
      by_contra hlt
      rw [pyGetNeg, dif_neg (fun h => hlt h.2)] at hnan
      exact Option.noConfusion hnan
    have hgetD : bb.percent_b.getD (bb.percent_b.length - 2) NpF.nan = .nan := by
      have he := pyGetNeg_eq_getD bb.percent_b 2 NpF.nan (by omega) h2len
      rw [he] at hnan
      exact Option.some.inj hnan
    rw [detectar_entrada_red klines bb h15 h2len h4o h3o h2o, hgetD,
      if_neg (fun h => h.1), if_neg (fun h => h.1)]

/-- C1 (counterexample): on the constant 20-candle series the calculator
returns a `%B` list holding the NaN value itself — the zero-variance index
is not reported as `None`/absent, the NaN is stored in the band set. -/
theorem C1_counterexample :
    calcular ex3 20 2 = some bb3 ∧ bb3.percent_b = [NpF.nan] := by
  refine ⟨calcular_ex3, ?_⟩
  have h0 : bb3.percent_b.getD 0 NpF.nan = .nan := by
    show (percent_b_calc (ex3.map Candle.close) 20 2).getD 0 NpF.nan = .nan
    refine percent_b_nan_of_variance_zero _ _ _ _ (by norm_num)
      (by norm_num [ex3]) ?_
    norm_num [ex3, c3, variance, mean, List.replicate]
  have hlen := bb3_pb_len
  cases hpb : bb3.percent_b with
  | nil =>
    rw [hpb] at hlen
    simp at hlen
  | cons a t =>
    rw [hpb] at hlen h0
    cases t with
    | nil =>
      simp only [List.getD, List.get?, Option.getD] at h0
      rw [h0]
    | cons b t2 =>
      simp at hlen

/-- C1 (witness): on 21 constant candles both `%B` entries are NaN, and
the detector reading the NaN at index `-2` returns `None` (no touch). -/
theorem C1_nan_no_touch_witness :
    bb1.percent_b.getD 1 NpF.nan = .nan ∧
    detectar_entrada_5m ex1 (some bb1) = .ok none := by
  have hlen1 : bb1.percent_b.length = 2 := by
    show (percent_b_calc (ex1.map Candle.close) 20 2).length = 2
    rw [length_percent_b_calc _ _ _ (by norm_num) (by norm_num [ex1])]
    norm_num [ex1]
  have h0 : bb1.percent_b.getD 0 NpF.nan = .nan :=
    C1_nan_no_touch.1 ex1 20 2 bb1 0 (by norm_num) calcular_ex1
      (by norm_num [ex1])
      (by norm_num [ex1, c3, variance, mean, List.replicate])
  have h1 : bb1.percent_b.getD 1 NpF.nan = .nan :=
    C1_nan_no_touch.1 ex1 20 2 bb1 1 (by norm_num) calcular_ex1
      (by norm_num [ex1])
      (by norm_num [ex1, c3, variance, mean, List.replicate])
  refine ⟨h1, ?_⟩
  have hget : pyGetNeg bb1.percent_b 2 = some NpF.nan := by
    rw [pyGetNeg_eq_getD bb1.percent_b 2 NpF.nan (by omega) (by omega), hlen1]
    show some (bb1.percent_b.getD 0 NpF.nan) = some NpF.nan
    rw [h0]
  exact C1_nan_no_touch.2 ex1 bb1 (by norm_num [ex1]) hget
    (by norm_num [pyNegD, ex1, c3, List.replicate])
    (by norm_num [pyNegD, ex1, c3, List.replicate])
    (by norm_num [pyNegD, ex1, c3, List.replicate])
